import Mathlib

/-!
Verification development for the FlightCal repository (src/core.py, src/app.py).

Modelling conventions:
* Python strings are lists of Unicode code points, `Str := List Nat`.
  ASCII-only operations (`re.sub`, `.upper()` on ASCII, `lstrip("0")`) are
  rendered code-point-wise.
* The "%Y%m%d %H%M" naive datetimes that core.py threads through every record
  are modelled by `NaiveDT`: a proleptic-Gregorian day number (days since
  1970-01-01) together with minutes past midnight.  `strptime`/`strftime`
  round-trips with this fixed format are bijections on well-formed values, so
  record fields hold the parsed value directly.
* The external flight-data provider and the timezone database are
  collaborators: provider responses enter `get_flight` as `Except` values and
  the timezone database as an offset function (zone name and UTC instant to
  minutes), mirroring how pyflightdata and pytz are used by the source.
* The Unicode character database is likewise a collaborator: the case table
  behind `str.upper` enters as an `UpperMap` (a character's uppercase
  expansion, possibly several characters), and the digit/whitespace classes
  behind str-pattern `\d`/`\s` and `int()` enter as a `UnicodeData`.
  Concrete runs instantiate them with documented fragments of the real
  tables that cover every character the run touches.
-/

namespace FlightCal

/-- Python strings modelled as lists of Unicode code points. -/
abbrev Str := List Nat

/-- Code points of a Lean string literal, used to write concrete examples. -/
def codes (s : String) : Str := s.data.map Char.toNat

/-! ## Identifier normalizer: core.py `parse_flight_number` (lines 225-234) -/

/-- Character class `[A-Z]` of the regexes in core.py. -/
def isUpperAZ (c : Nat) : Bool := decide (65 ≤ c ∧ c ≤ 90)

/-- Character class `[0-9]`. -/
def isDigit09 (c : Nat) : Bool := decide (48 ≤ c ∧ c ≤ 57)

/-- Character class `[A-Za-z0-9]` used by `re.sub(r"[^A-Za-z0-9]", "", ...)`. -/
def isAlnumAscii (c : Nat) : Bool :=
  isUpperAZ c || isDigit09 c || decide (97 ≤ c ∧ c ≤ 122)

/-- ASCII uppercasing of one code point.  Inside `parse_flight_number` the
`.upper()` that builds `cleaned_flight_number` acts on the output of
`re.sub(r"[^A-Za-z0-9]", "", ...)`, a string of ASCII letters and digits
only, where the Unicode case mapping coincides with this character-wise
ASCII mapping. -/
def upAscii (c : Nat) : Nat := if 97 ≤ c ∧ c ≤ 122 then c - 32 else c

/-- Python `str.upper` maps each character to its uppercase expansion, which
can be several characters (U+00DF, ß, uppercases to "SS").  The full mapping
is the Unicode case table, standard-library data external to this
repository; it enters the embedding as a parameter, like the timezone
database. -/
abbrev UpperMap := Nat → List Nat

/-- Python `s.upper()`: concatenation of each character's uppercase
expansion under the given case table. -/
def pyUpper (up : UpperMap) : Str → Str
  | [] => []
  | c :: cs => up c ++ pyUpper up cs

/-- ASCII fragment of the Unicode uppercase mapping: on every ASCII code
point `str.upper` maps a-z to A-Z and fixes everything else, character-wise.
Used to instantiate `UpperMap` for runs whose strings are ASCII. -/
def upAsciiMap (c : Nat) : List Nat :=
  if 97 ≤ c ∧ c ≤ 122 then [c - 32] else [c]

/-- Fragment of the Unicode uppercase mapping extending the ASCII fragment
with U+00DF (LATIN SMALL LETTER SHARP S, 223), whose uppercase under the
special casing applied by `str.upper` is "SS" (U+0053 U+0053). -/
def upWithSharpS (c : Nat) : List Nat :=
  if c = 223 then [83, 83] else upAsciiMap c

/-- The `re.sub(r"[^A-Za-z0-9]", "", flight_number).upper()` step of
`parse_flight_number`; the filter leaves ASCII alphanumerics only, so the
subsequent `.upper()` is the character-wise ASCII mapping. -/
def cleanedOf (s : Str) : Str := (s.filter isAlnumAscii).map upAscii

/-- Embedding of core.py `parse_flight_number` (lines 225-234).
`re.match(r"([A-Z]+)([0-9]+)", cleaned)` anchors at the start only; since the
two character classes are disjoint the greedy groups are exactly the maximal
leading letter run followed by the maximal digit run, and the match succeeds
iff both are non-empty.  On success the code returns
`letters + numbers.lstrip("0")`; otherwise the original input uppercased by
the full Unicode `str.upper` (the `up` parameter). -/
def parse_flight_number (up : UpperMap) (s : Str) : Str :=
  let cleaned := cleanedOf s
  let letters := cleaned.takeWhile isUpperAZ
  let rest := cleaned.dropWhile isUpperAZ
  let numbers := rest.takeWhile isDigit09
  if letters ≠ [] ∧ numbers ≠ [] then
    letters ++ numbers.dropWhile (fun c => decide (c = 48))
  else
    pyUpper up s

/-! ## Naive datetimes and proleptic-Gregorian day numbers -/

/-- Naive datetime in the source's fixed "%Y%m%d %H%M" representation:
a proleptic-Gregorian day number (days since 1970-01-01, negative before)
and minutes past midnight. -/
structure NaiveDT where
  day : Int
  min : Nat
deriving DecidableEq, Repr

instance : Inhabited NaiveDT := ⟨⟨0, 0⟩⟩

/-- Day number of a civil date (days since 1970-01-01), the arithmetic that
Python's `datetime.date` subtraction and `timedelta(days=...)` implement.
Standard civil-from-days algorithm with floor division. -/
def civilToDays (y : Int) (m d : Nat) : Int :=
  let y2 : Int := if m ≤ 2 then y - 1 else y
  let era : Int := y2.fdiv 400
  let yoe : Int := y2 - era * 400
  let mp : Int := (↑m + 9) % 12
  let doy : Int := (153 * mp + 2).fdiv 5 + ↑d - 1
  let doe : Int := yoe * 365 + yoe.fdiv 4 - yoe.fdiv 100 + doy
  era * 146097 + doe - 719468

/-- Inverse of `civilToDays`: year, month, day of a day number.  Used only to
format datetimes when serializing calendar events. -/
def civilFromDays (z0 : Int) : Int × Nat × Nat :=
  let z : Int := z0 + 719468
  let era : Int := z.fdiv 146097
  let doe : Int := z - era * 146097
  let yoe : Int := (doe - doe.fdiv 1460 + doe.fdiv 36524 - doe.fdiv 146096).fdiv 365
  let y : Int := yoe + era * 400
  let doy : Int := doe - (365 * yoe + yoe.fdiv 4 - yoe.fdiv 100)
  let mp : Int := (5 * doy + 2).fdiv 153
  let d : Int := doy - (153 * mp + 2).fdiv 5 + 1
  let m : Int := if mp < 10 then mp + 3 else mp - 9
  (if m ≤ 2 then y + 1 else y, m.toNat, d.toNat)

/-- Shift a naive datetime by a signed number of minutes, renormalizing the
day number and the minute-of-day.  This is exactly `datetime` arithmetic with
a minute-granularity `timedelta`, as performed by `astimezone` for the offset
in force at the instant. -/
def addMinutes (dt : NaiveDT) (delta : Int) : NaiveDT :=
  let t : Int := dt.day * 1440 + ↑dt.min + delta
  ⟨t.fdiv 1440, (t.fmod 1440).toNat⟩

/-! ## Raw provider records and canonical rows -/

/-- One raw record of the external provider, restricted to the fields that
core.py consumes (`parse_flight_info`, `drop_ununique_flights`).  Dates and
times arrive as "%Y%m%d" / "%H%M" strings; they are carried parsed, and
`airline` is `none` when the provider omits the airline dict or its non-empty
`name` (the falsy check at core.py line 133). -/
structure RawRecord where
  number : Str
  departure_date : Int
  departure_time : Nat
  arrival_date : Int
  arrival_time : Nat
  airline : Option Str
  origin_name : Str
  origin_iata : Str
  origin_tzname : Str
  destination_name : Str
  destination_iata : Str
  destination_tzname : Str
deriving DecidableEq, Repr

instance : Inhabited RawRecord := ⟨⟨[], 0, 0, 0, 0, none, [], [], [], [], [], []⟩⟩

/-- One row of the DataFrame that `get_flight` builds: the dict produced by
`parse_flight_info` plus the `is_guess` column and the display columns that
`parse_nice_datetime` appends (modelled as optional copies, since the
"nice" format is a bijective re-rendering of the same value). -/
structure Row where
  flight_number : Str
  scheduled_departure : NaiveDT
  scheduled_arrival : NaiveDT
  airline_name : Str
  origin_airport : Str
  destination_airport : Str
  origin_timezone : Str
  destination_timezone : Str
  origin_airport_code : Str
  destination_airport_code : Str
  is_guess : Bool := false
  nice_departure_date : Option NaiveDT := none
  nice_arrival_date : Option NaiveDT := none
deriving DecidableEq, Repr

instance : Inhabited Row :=
  ⟨⟨[], default, default, [], [], [], [], [], [], [], false, none, none⟩⟩

/-- The static carrier-code table of core.py lines 141-186, in source order. -/
def airline_map : List (Str × Str) :=
  [ (codes "BA", codes "British Airways")
  , (codes "AA", codes "American Airlines")
  , (codes "UA", codes "United Airlines")
  , (codes "LH", codes "Lufthansa")
  , (codes "AF", codes "Air France")
  , (codes "KL", codes "KLM")
  , (codes "IB", codes "Iberia")
  , (codes "AS", codes "Alaska Airlines")
  , (codes "DL", codes "Delta Air Lines")
  , (codes "SW", codes "Southwest Airlines")
  , (codes "EK", codes "Emirates")
  , (codes "QF", codes "Qantas")
  , (codes "SQ", codes "Singapore Airlines")
  , (codes "NH", codes "All Nippon Airways")
  , (codes "CX", codes "Cathay Pacific")
  , (codes "AC", codes "Air Canada")
  , (codes "OS", codes "Austrian Airlines")
  , (codes "AZ", codes "Alitalia")
  , (codes "BE", codes "Brussels Airlines")
  , (codes "CA", codes "Air China")
  , (codes "CI", codes "China Airlines")
  , (codes "CM", codes "China Eastern Airlines")
  , (codes "CZ", codes "China Southern Airlines")
  , (codes "EY", codes "Etihad Airways")
  , (codes "FI", codes "Icelandair")
  , (codes "GA", codes "Garuda Indonesia")
  , (codes "G3", codes "GOL")
  , (codes "HA", codes "Hawaiian Airlines")
  , (codes "JL", codes "Japan Airlines")
  , (codes "LA", codes "LATAM Airlines")
  , (codes "LX", codes "Swiss International Air Lines")
  , (codes "MH", codes "Malaysia Airlines")
  , (codes "NZ", codes "Air New Zealand")
  , (codes "PR", codes "Philippine Airlines")
  , (codes "QR", codes "Qatar Airways")
  , (codes "RJ", codes "Royal Jordanian")
  , (codes "SK", codes "SAS")
  , (codes "SN", codes "Brussels Airlines")
  , (codes "TG", codes "Thai Airways")
  , (codes "TK", codes "Turkish Airlines")
  , (codes "TP", codes "TAP Air Portugal")
  , (codes "VN", codes "Vietnam Airlines")
  , (codes "VX", codes "Virgin America")
  , (codes "WN", codes "Southwest Airlines") ]

/-- Airline-name resolution of `parse_flight_info` (core.py lines 131-189):
a provider-supplied non-empty name wins; otherwise the leading `[A-Z]+`
prefix of the flight number (via `re.match(r"([A-Z]+)", ...)`) is looked up
in `airline_map`, defaulting to `"Airline (<code>)"`; with no letter prefix
the name is `"Unknown Airline"`. -/
def resolve_airline_fallback (flight_number : Str) : Str :=
  let code := flight_number.takeWhile isUpperAZ
  if code ≠ [] then
    (airline_map.lookup code).getD (codes "Airline (" ++ code ++ codes ")")
  else codes "Unknown Airline"

/-- Dispatch between the provider-supplied airline name and the carrier-code
fallback: `if isinstance(airline, dict) and airline.get("name")` at
core.py line 133. -/
def resolve_airline (airline : Option Str) (flight_number : Str) : Str :=
  match airline with
  | some nm =>
    if nm ≠ [] then nm
    else resolve_airline_fallback flight_number
  | none => resolve_airline_fallback flight_number

/-- Mapping of one raw provider record to the canonical dict shape, embedding
core.py `parse_flight_info` (lines 118-208) applied to index `n`.  The date
and time strings the source concatenates into "%Y%m%d %H%M" are carried as
the parsed `NaiveDT` value. -/
def parse_flight_info_rec (r : RawRecord) : Row :=
  { flight_number := r.number
  , scheduled_departure := ⟨r.departure_date, r.departure_time⟩
  , scheduled_arrival := ⟨r.arrival_date, r.arrival_time⟩
  , airline_name := resolve_airline r.airline r.number
  , origin_airport := r.origin_name
  , destination_airport := r.destination_name
  , origin_timezone := r.origin_tzname
  , destination_timezone := r.destination_tzname
  , origin_airport_code := r.origin_iata
  , destination_airport_code := r.destination_iata }

/-- Indexed form used inside `get_flight`: `parse_flight_info(flight_info, n)`
reads the n-th record of the list. -/
def parse_flight_info (flight_info : List RawRecord) (n : Nat) : Row :=
  parse_flight_info_rec (flight_info.getD n default)

/-! ## Candidate deduplicator: core.py `drop_ununique_flights` (lines 253-266) -/

/-- Loop body of `drop_ununique_flights`: walk the records in order carrying
the set of departure times already seen (a list suffices for membership) and
keep a record only when its `["time"]["scheduled"]["departure_time"]` is new. -/
def drop_go (seen : List Nat) : List RawRecord → List RawRecord
  | [] => []
  | r :: rest =>
    if r.departure_time ∈ seen then drop_go seen rest
    else r :: drop_go (r.departure_time :: seen) rest

/-- Embedding of core.py `drop_ununique_flights` (lines 253-266) on the
already-normalized list shape (the dict branch takes `list(values())`,
which is the same ordered sequence). -/
def drop_ununique_flights (flight_info : List RawRecord) : List RawRecord :=
  drop_go [] flight_info

/-- Reference deduplicator written from the spec's words (§4.5): keep the
first record for each distinct departure time-of-day, dropping later records
whose time-of-day has been seen, preserving first-occurrence order. -/
def dedupeSpec : List RawRecord → List RawRecord
  | [] => []
  | x :: xs =>
    x :: dedupeSpec (xs.filter (fun y => decide (y.departure_time ≠ x.departure_time)))
termination_by l => l.length
decreasing_by
  simp only [List.length_cons]
  exact Nat.lt_succ_of_le (List.length_filter_le _ _)

/-! ## Date-shift estimator: core.py `move_flight_date` (lines 269-292) -/

/-- Embedding of core.py `move_flight_date` (lines 269-292).  The day
difference is `(target - departure.date()).days`; when it is non-zero both
datetimes get `timedelta(days=day_difference)` added, otherwise both are
rebuilt with `datetime.combine(date, ...time())`. -/
def move_flight_date (flight_info : Row) (date : Int) : Row :=
  let scheduled_departure := flight_info.scheduled_departure
  let scheduled_arrival := flight_info.scheduled_arrival
  let day_difference : Int := date - scheduled_departure.day
  if day_difference ≠ 0 then
    { flight_info with
      scheduled_departure := ⟨scheduled_departure.day + day_difference, scheduled_departure.min⟩
      scheduled_arrival := ⟨scheduled_arrival.day + day_difference, scheduled_arrival.min⟩ }
  else
    { flight_info with
      scheduled_departure := ⟨date, scheduled_departure.min⟩
      scheduled_arrival := ⟨date, scheduled_arrival.min⟩ }

/-! ## Timezone reconciler: core.py `update_df_timezones` (lines 95-115) -/

/-- Offset database: minutes east of UTC of a named zone at a given UTC
instant.  This is the pytz collaborator; DST is captured by the dependence
on the instant. -/
abbrev TzOffset := Str → NaiveDT → Int

/-- Per-row body of `update_df_timezones`: the stored departure/arrival are
read as UTC instants and rewritten as local civil datetimes of the origin
resp. destination zone. -/
def update_row_timezones (off : TzOffset) (r : Row) : Row :=
  { r with
    scheduled_departure :=
      addMinutes r.scheduled_departure (off r.origin_timezone r.scheduled_departure)
    scheduled_arrival :=
      addMinutes r.scheduled_arrival (off r.destination_timezone r.scheduled_arrival) }

/-- Embedding of core.py `update_df_timezones` (lines 95-115). -/
def update_df_timezones (off : TzOffset) (df : List Row) : List Row :=
  df.map (update_row_timezones off)

/-- Per-row body of `parse_nice_datetime`: attaches the display columns,
which are the same datetimes re-rendered in "%Y-%m-%d %H:%M" (a bijective
re-formatting, carried as the value). -/
def parse_nice_row (r : Row) : Row :=
  { r with
    nice_departure_date := some r.scheduled_departure
    nice_arrival_date := some r.scheduled_arrival }

/-- Embedding of core.py `parse_nice_datetime` (lines 215-222). -/
def parse_nice_datetime (df : List Row) : List Row :=
  df.map parse_nice_row

/-! ## Flight resolver: core.py `get_flight` (lines 52-92) -/

/-- Resolution failures of `get_flight`: the `ValueError` with message
"No flight information found for flight number {flight_number}." carrying
the normalized flight number, and an uncaught provider exception. -/
inductive FlightErr where
  | notFound (flight_number : Str)
  | providerError
deriving DecidableEq, Repr

/-- Embedding of core.py `get_flight` (lines 52-92).

The two provider calls are collaborator inputs: `datedRes` is the outcome of
`find_flights_with_date` (its dict shape already normalized to the ordered
value list, core.py lines 57-59) and `histRes` the outcome of
`f.get_history_by_flight_number` inside `find_flight_no_date`.  An exception
from the dated call is uncaught and propagates (`providerError`); the history
call sits inside `try/except Exception`, so both an exception there and the
empty-history `ValueError` raised by `find_flight_no_date` (lines 246-250)
become the `notFound` error.  The date argument is the day number produced by
`parse_date` from a valid "YYYY-MM-DD" input. -/
def get_flight (up : UpperMap) (off : TzOffset)
    (datedRes histRes : Except Unit (List RawRecord))
    (flight_number : Str) (date : Int) : Except FlightErr (List Row) :=
  let fn := parse_flight_number up flight_number
  match datedRes with
  | .error _ => .error .providerError
  | .ok flight_info =>
    if flight_info = [] then
      match histRes with
      | .error _ => .error (.notFound fn)
      | .ok hist =>
        if hist = [] then .error (.notFound fn)
        else
          let fi := drop_ununique_flights hist
          let df := (List.range fi.length).map (fun i => parse_flight_info fi i)
          let df := df.map (fun r => { r with is_guess := true })
          let df := df.map (fun r => move_flight_date r date)
          let df := update_df_timezones off df
          let df := parse_nice_datetime df
          .ok df
    else
      if flight_info.length > 1 then
        let df := (List.range flight_info.length).map (fun i => parse_flight_info flight_info i)
        let df := df.map (fun r => { r with is_guess := false })
        let df := update_df_timezones off df
        let df := parse_nice_datetime df
        .ok df
      else
        let df := [parse_flight_info flight_info 0]
        let df := df.map (fun r => { r with is_guess := false })
        let df := update_df_timezones off df
        let df := parse_nice_datetime df
        .ok df

/-! ## Manual-entry validation: app.py `create_manual_event` (lines 83-151) -/

/-- Form data of the manual-entry route.  Each field is the submitted string;
an absent form key and an empty submission are both falsy for
`not flight_data.get(field)`, so both are the empty string here. -/
structure ManualData where
  flight_number : Str
  airline_name : Str
  origin_airport : Str
  origin_airport_code : Str
  destination_airport : Str
  destination_airport_code : Str
  scheduled_departure : Str
  scheduled_arrival : Str
  origin_timezone : Str
  destination_timezone : Str
deriving DecidableEq, Repr

instance : Inhabited ManualData := ⟨⟨[], [], [], [], [], [], [], [], [], []⟩⟩

/-- Validation failures of `create_manual_event`, one per `raise ValueError`
site of app.py lines 113-139. -/
inductive ManualErr where
  | missingField (field : Str)
  | invalidOriginCode
  | invalidDestinationCode
  | invalidDatetime
deriving DecidableEq, Repr

/-- First missing required field, in the order of the `required_fields` list
at app.py lines 101-112. -/
def firstMissingField (d : ManualData) : Option Str :=
  if d.flight_number = [] then some (codes "flight_number")
  else if d.airline_name = [] then some (codes "airline_name")
  else if d.origin_airport = [] then some (codes "origin_airport")
  else if d.origin_airport_code = [] then some (codes "origin_airport_code")
  else if d.destination_airport = [] then some (codes "destination_airport")
  else if d.destination_airport_code = [] then some (codes "destination_airport_code")
  else if d.scheduled_departure = [] then some (codes "scheduled_departure")
  else if d.scheduled_arrival = [] then some (codes "scheduled_arrival")
  else if d.origin_timezone = [] then some (codes "origin_timezone")
  else if d.destination_timezone = [] then some (codes "destination_timezone")
  else none

/-- Python `re.match(r"^[A-Z]{3}$", s)`: three uppercase ASCII letters, where
`$` also tolerates one trailing newline (re semantics). -/
def matchesAZ3 (s : Str) : Bool :=
  match s with
  | [a, b, c] => isUpperAZ a && isUpperAZ b && isUpperAZ c
  | [a, b, c, n] => isUpperAZ a && isUpperAZ b && isUpperAZ c && decide (n = 10)
  | _ => false

/-- The `replace("T", " ")` normalization guarded by `if "T" in ...`
(app.py lines 127-134); code point 84 is "T", 32 is the space. -/
def t_to_space (s : Str) : Str :=
  if 84 ∈ s then s.map (fun c => if c = 84 then 32 else c) else s

/-- Character classes and decimal values of the Unicode character database,
as used by Python str-pattern regexes (`\d` matches any Unicode decimal
digit, `\s` any Unicode whitespace — `_strptime` compiles its format
without `re.ASCII`) and by `int()` on matched digit groups.  The tables are
standard-library data external to this repository; they enter the model as
a parameter, like the timezone database. -/
structure UnicodeData where
  isDigit : Nat → Bool
  isSpace : Nat → Bool
  digitVal : Nat → Nat

/-- Fragment of the Unicode tables: the ASCII decimal digits, the
Arabic-Indic digits U+0660-U+0669 (category Nd, decimal values 0-9), ASCII
whitespace, and U+00A0 NO-BREAK SPACE (matched by str-pattern `\s`).  The
real tables extend this fragment with further scripts, which no concrete
input used below contains. -/
def udSample : UnicodeData :=
  { isDigit := fun c => decide ((48 ≤ c ∧ c ≤ 57) ∨ (1632 ≤ c ∧ c ≤ 1641))
  , isSpace := fun c =>
      decide (c = 9 ∨ c = 10 ∨ c = 11 ∨ c = 12 ∨ c = 13 ∨ c = 32 ∨ c = 160)
  , digitVal := fun c => if 1632 ≤ c ∧ c ≤ 1641 then c - 1632 else c - 48 }

/-- Gregorian leap-year rule, as `datetime` uses. -/
def isLeapYear (y : Nat) : Bool :=
  y % 4 = 0 && (y % 100 ≠ 0 || y % 400 = 0)

/-- Length of a month, as validated by the `datetime` constructor. -/
def daysInMonth (y m : Nat) : Nat :=
  if m = 2 then (if isLeapYear y then 29 else 28)
  else if m = 4 ∨ m = 6 ∨ m = 9 ∨ m = 11 then 30
  else 31

/-- Numeric value of a matched digit group under `int()`, which accepts any
Unicode decimal digits. -/
def groupVal (ud : UnicodeData) (ds : Str) : Nat :=
  ds.foldl (fun a c => a * 10 + ud.digitVal c) 0

/-- The `%Y` field of `_strptime`, compiled to `\d\d\d\d`: exactly four
Unicode decimal digits. -/
def yearMatch (ud : UnicodeData) : Str → Option (Nat × Str)
  | a :: b :: c :: d :: rest =>
    if ud.isDigit a ∧ ud.isDigit b ∧ ud.isDigit c ∧ ud.isDigit d then
      some (groupVal ud [a, b, c, d], rest)
    else none
  | _ => none

/-- The `%m` field, compiled to `1[0-2]|0[1-9]|[1-9]` (ASCII-literal
classes only): candidate (value, remainder) pairs in regex priority order. -/
def monthCandidates : Str → List (Nat × Str)
  | [] => []
  | [a] => if 49 ≤ a ∧ a ≤ 57 then [(a - 48, [])] else []
  | a :: b :: rest =>
    (if a = 49 ∧ 48 ≤ b ∧ b ≤ 50 then [(10 + (b - 48), rest)] else []) ++
    (if a = 48 ∧ 49 ≤ b ∧ b ≤ 57 then [(b - 48, rest)] else []) ++
    (if 49 ≤ a ∧ a ≤ 57 then [(a - 48, b :: rest)] else [])

/-- The `%d` field, compiled to `3[01]|[12]\d|0[1-9]|[1-9]`: the second
character of the `[12]\d` alternative is any Unicode decimal digit. -/
def dayCandidates (ud : UnicodeData) : Str → List (Nat × Str)
  | [] => []
  | [a] => if 49 ≤ a ∧ a ≤ 57 then [(a - 48, [])] else []
  | a :: b :: rest =>
    (if a = 51 ∧ (b = 48 ∨ b = 49) then [(30 + (b - 48), rest)] else []) ++
    (if (a = 49 ∨ a = 50) ∧ ud.isDigit b then
      [((a - 48) * 10 + ud.digitVal b, rest)] else []) ++
    (if a = 48 ∧ 49 ≤ b ∧ b ≤ 57 then [(b - 48, rest)] else []) ++
    (if 49 ≤ a ∧ a ≤ 57 then [(a - 48, b :: rest)] else [])

/-- The `%H` field, compiled to `2[0-3]|[0-1]\d|\d`. -/
def hourCandidates (ud : UnicodeData) : Str → List (Nat × Str)
  | [] => []
  | [a] => if ud.isDigit a then [(ud.digitVal a, [])] else []
  | a :: b :: rest =>
    (if a = 50 ∧ 48 ≤ b ∧ b ≤ 51 then [(20 + (b - 48), rest)] else []) ++
    (if (a = 48 ∨ a = 49) ∧ ud.isDigit b then
      [((a - 48) * 10 + ud.digitVal b, rest)] else []) ++
    (if ud.isDigit a then [(ud.digitVal a, b :: rest)] else [])

/-- The `%M` field, compiled to `[0-5]\d|\d`. -/
def minuteCandidates (ud : UnicodeData) : Str → List (Nat × Str)
  | [] => []
  | [a] => if ud.isDigit a then [(ud.digitVal a, [])] else []
  | a :: b :: rest =>
    (if 48 ≤ a ∧ a ≤ 53 ∧ ud.isDigit b then
      [((a - 48) * 10 + ud.digitVal b, rest)] else []) ++
    (if ud.isDigit a then [(ud.digitVal a, b :: rest)] else [])

/-- Embedding of `datetime.strptime(s, "%Y-%m-%d %H:%M")` followed by the
`datetime` constructor's range checks.  CPython's `_strptime` compiles the
format to a str-pattern regex: `%Y` is `\d\d\d\d` (Unicode digits), the
literal `-` and `:` match themselves, the literal space becomes `\s+`
(one or more Unicode whitespace characters), and the numeric fields are the
alternative patterns modelled by the candidate functions above, tried in
regex priority order with backtracking through the rest of the format.  A
match must consume the whole input ("unconverted data remains" otherwise),
and the constructor then requires year at least 1 and the day to exist in
the month.  Whitespace is taken greedily, which is equivalent because every
following field starts with a digit. -/
def strptime_ymd_hm (ud : UnicodeData) (s : Str) :
    Option (Nat × Nat × Nat × Nat × Nat) :=
  match yearMatch ud s with
  | none => none
  | some (y, r1) =>
    match r1 with
    | 45 :: r2 =>
      let rest4 := (monthCandidates r2).findSome? (fun mo_r =>
        match mo_r.2 with
        | 45 :: r4 =>
          (dayCandidates ud r4).findSome? (fun d_r =>
            let sp := d_r.2.takeWhile ud.isSpace
            let r6 := d_r.2.dropWhile ud.isSpace
            if sp = [] then none
            else
              (hourCandidates ud r6).findSome? (fun h_r =>
                match h_r.2 with
                | 58 :: r8 =>
                  (minuteCandidates ud r8).findSome? (fun mi_r =>
                    if mi_r.2 = [] then
                      some (mo_r.1, d_r.1, h_r.1, mi_r.1)
                    else none)
                | _ => none))
        | _ => none)
      match rest4 with
      | some (mo, d, h, mi) =>
        if 1 ≤ y ∧ d ≤ daysInMonth y mo then some (y, mo, d, h, mi) else none
      | none => none
    | _ => none

/-- Embedding of the validation part of app.py `create_manual_event`
(lines 100-139): required fields, airport-code shape, and the two datetime
fields with their `T` normalization.  On success the route proceeds with the
updated `flight_data`, which this function returns. -/
def create_manual_event_validate (ud : UnicodeData) (d : ManualData) :
    Except ManualErr ManualData :=
  match firstMissingField d with
  | some f => .error (.missingField f)
  | none =>
    if ¬ matchesAZ3 d.origin_airport_code then .error .invalidOriginCode
    else if ¬ matchesAZ3 d.destination_airport_code then .error .invalidDestinationCode
    else
      let dep := t_to_space d.scheduled_departure
      let arr := t_to_space d.scheduled_arrival
      match strptime_ymd_hm ud dep, strptime_ymd_hm ud arr with
      | some _, some _ =>
        .ok { d with scheduled_departure := dep, scheduled_arrival := arr }
      | _, _ => .error .invalidDatetime

/-! ## Calendar event builder: core.py `make_ical_event` (lines 295-330) -/

/-- The single VEVENT plus calendar-level properties that `make_ical_event`
assembles before serialization.  `dtstart`/`dtend` are civil datetimes tagged
with the zone they were localized to (`origin_tz.localize(...)` resp.
`destination_tz.localize(...)`); `dtstamp` is the UTC generation instant. -/
structure ICalEvent where
  summary : Str
  dtstart_tzid : Str
  dtstart : NaiveDT
  dtend_tzid : Str
  dtend : NaiveDT
  location : Str
  description : Str
  dtstamp : NaiveDT
  status : Str
deriving DecidableEq, Repr

/-- Event construction of core.py `make_ical_event` (lines 295-330), with the
generation instant `now` passed explicitly in place of `datetime.now(utc)`.
The summary and description are the f-strings of lines 303-307 and 321-324
(including their literal decoration characters). -/
def make_ical_event_data (now : NaiveDT) (data : Row) : ICalEvent :=
  { summary :=
      codes "üõ´ " ++ data.airline_name ++ codes " " ++ data.origin_airport_code ++
      codes " ‚û°Ô∏è " ++ data.destination_airport_code ++ codes " " ++ data.flight_number
  , dtstart_tzid := data.origin_timezone
  , dtstart := data.scheduled_departure
  , dtend_tzid := data.destination_timezone
  , dtend := data.scheduled_arrival
  , location := data.origin_airport
  , description :=
      data.airline_name ++ codes " flight " ++ data.flight_number ++
      codes " / Departs " ++ data.origin_airport ++ codes ", " ++ data.origin_airport_code
  , dtstamp := now
  , status := codes "CONFIRMED" }

/-- Decimal digits of a natural number. -/
def natToDigits (n : Nat) : Str := (Nat.toDigits 10 n).map Char.toNat

/-- Zero-pad a digit run on the left to the given width. -/
def padZeros (w : Nat) (s : Str) : Str := List.replicate (w - s.length) 48 ++ s

/-- Basic-format iCalendar local datetime "YYYYMMDDTHHMMSS". -/
def icalFmtDT (dt : NaiveDT) : Str :=
  let c := civilFromDays dt.day
  padZeros 4 (natToDigits c.1.toNat) ++ padZeros 2 (natToDigits c.2.1) ++
  padZeros 2 (natToDigits c.2.2) ++ [84] ++
  padZeros 2 (natToDigits (dt.min / 60)) ++ padZeros 2 (natToDigits (dt.min % 60)) ++
  codes "00"

/-- CRLF line terminator of the iCalendar wire format. -/
def crlf : Str := [13, 10]

/-- Join calendar lines with CRLF terminators. -/
def joinCrlf : List Str → Str
  | [] => []
  | l :: ls => l ++ crlf ++ joinCrlf ls

/-- Modelled from the spec: serialization performed by the external
`icalendar` library (`cal.to_ical()`), which is not part of this repository.
The layout follows the literal calendar file format of the spec's external
interface section: one VCALENDAR wrapping one VEVENT, with one property line
per list entry, CRLF-terminated. -/
def serialize_ical (e : ICalEvent) : Str :=
  joinCrlf
    [ codes "BEGIN:VCALENDAR"
    , codes "PRODID:-//eluceo/ical//2.0/EN"
    , codes "VERSION:2.0"
    , codes "CALSCALE:GREGORIAN"
    , codes "METHOD:REQUEST"
    , codes "BEGIN:VEVENT"
    , codes "SUMMARY:" ++ e.summary
    , codes "DTSTART;TZID=" ++ e.dtstart_tzid ++ [58] ++ icalFmtDT e.dtstart
    , codes "DTEND;TZID=" ++ e.dtend_tzid ++ [58] ++ icalFmtDT e.dtend
    , codes "LOCATION:" ++ e.location
    , codes "DESCRIPTION:" ++ e.description
    , codes "DTSTAMP:" ++ icalFmtDT e.dtstamp ++ codes "Z"
    , codes "STATUS:" ++ e.status
    , codes "END:VEVENT"
    , codes "END:VCALENDAR" ]

/-- Embedding of core.py `make_ical_event` (lines 295-330): build the event
from the record and serialize it to bytes. -/
def make_ical_event (now : NaiveDT) (data : Row) : Str :=
  serialize_ical (make_ical_event_data now data)

/-! ## Per-record form of the resolution pipeline -/

/-- Canonical form of one raw record on the exact-date path of `get_flight`:
map, mark `is_guess = false`, reconcile timezones, attach display fields. -/
def canonicalize_exact (off : TzOffset) (r : RawRecord) : Row :=
  parse_nice_row (update_row_timezones off
    { parse_flight_info_rec r with is_guess := false })

/-- Canonical form of one raw record on the historical fallback path of
`get_flight`: map, mark `is_guess = true`, project onto the requested date,
reconcile timezones, attach display fields. -/
def canonicalize_guess (off : TzOffset) (date : Int) (r : RawRecord) : Row :=
  parse_nice_row (update_row_timezones off
    (move_flight_date { parse_flight_info_rec r with is_guess := true } date))

/-! ## Concrete inputs used by witnesses and counterexamples -/

/-- Overnight SIN-SFO row of the repository's mock data: departure
2024-10-23 14:30, arrival 2024-10-24 06:15 (reference frame). -/
def c1Row : Row :=
  { flight_number := codes "SQ327"
  , scheduled_departure := ⟨civilToDays 2024 10 23, 870⟩
  , scheduled_arrival := ⟨civilToDays 2024 10 24, 375⟩
  , airline_name := codes "Singapore Airlines"
  , origin_airport := codes "Singapore Changi Airport"
  , destination_airport := codes "San Francisco International Airport"
  , origin_timezone := codes "Asia/Singapore"
  , destination_timezone := codes "America/Los_Angeles"
  , origin_airport_code := codes "SIN"
  , destination_airport_code := codes "SFO" }

/-- Raw historical record departing 2024-10-20 22:00 with a one-hour flight,
used to drive `get_flight` through the fallback path. -/
def c2rec : RawRecord :=
  { number := codes "SQ327"
  , departure_date := civilToDays 2024 10 20, departure_time := 1320
  , arrival_date := civilToDays 2024 10 20, arrival_time := 1380
  , airline := some (codes "Singapore Airlines")
  , origin_name := codes "Singapore Changi Airport"
  , origin_iata := codes "SIN"
  , origin_tzname := codes "Asia/Singapore"
  , destination_name := codes "San Francisco International Airport"
  , destination_iata := codes "SFO"
  , destination_tzname := codes "America/Los_Angeles" }

/-- Fixed-offset timezone database (UTC+8, Singapore) for concrete runs. -/
def c2off : TzOffset := fun _ _ => 480

/-- Raw dated record used to exhibit the undeduplicated exact-date path. -/
def c4rec : RawRecord :=
  { number := codes "SQ327"
  , departure_date := civilToDays 2024 10 23, departure_time := 870
  , arrival_date := civilToDays 2024 10 24, arrival_time := 375
  , airline := some (codes "Singapore Airlines")
  , origin_name := codes "Singapore Changi Airport"
  , origin_iata := codes "SIN"
  , origin_tzname := codes "Asia/Singapore"
  , destination_name := codes "San Francisco International Airport"
  , destination_iata := codes "SFO"
  , destination_tzname := codes "America/Los_Angeles" }

/-- Historical record for the fallback-path witness of the dedup invariant. -/
def c4hrec : RawRecord :=
  { c4rec with departure_date := civilToDays 2024 10 20 }

/-- Record with departure time-of-day 14:30. -/
def c5recA : RawRecord :=
  { number := codes "SQ327"
  , departure_date := civilToDays 2024 10 23, departure_time := 870
  , arrival_date := civilToDays 2024 10 24, arrival_time := 375
  , airline := none
  , origin_name := codes "Singapore Changi Airport"
  , origin_iata := codes "SIN"
  , origin_tzname := codes "Asia/Singapore"
  , destination_name := codes "San Francisco International Airport"
  , destination_iata := codes "SFO"
  , destination_tzname := codes "America/Los_Angeles" }

/-- Record with the same departure time-of-day 14:30 on another date. -/
def c5recB : RawRecord :=
  { c5recA with departure_date := civilToDays 2024 10 24 }

/-- Record with departure time-of-day 16:30. -/
def c5recC : RawRecord :=
  { c5recA with departure_time := 990 }

/-- Valid manual-entry submission with a datetime-local departure field. -/
def c8good : ManualData :=
  { flight_number := codes "SQ327"
  , airline_name := codes "Singapore Airlines"
  , origin_airport := codes "Singapore Changi Airport"
  , origin_airport_code := codes "SIN"
  , destination_airport := codes "San Francisco International Airport"
  , destination_airport_code := codes "SFO"
  , scheduled_departure := codes "2024-10-23T14:30"
  , scheduled_arrival := codes "2024-10-23 16:45"
  , origin_timezone := codes "Asia/Singapore"
  , destination_timezone := codes "America/Los_Angeles" }

/-- Manual-entry submission whose departure datetime is not of the
"YYYY-MM-DD HH:MM" shape yet parses under strptime leniency. -/
def c8lenient : ManualData :=
  { c8good with scheduled_departure := codes "2024-1-23 4:30" }

/-! ## Helper lemmas -/

theorem move_flight_date_keeps (r : Row) (date : Int) :
    (move_flight_date r date).flight_number = r.flight_number ∧
    (move_flight_date r date).airline_name = r.airline_name ∧
    (move_flight_date r date).origin_airport = r.origin_airport ∧
    (move_flight_date r date).destination_airport = r.destination_airport ∧
    (move_flight_date r date).origin_timezone = r.origin_timezone ∧
    (move_flight_date r date).destination_timezone = r.destination_timezone ∧
    (move_flight_date r date).origin_airport_code = r.origin_airport_code ∧
    (move_flight_date r date).destination_airport_code = r.destination_airport_code ∧
    (move_flight_date r date).is_guess = r.is_guess ∧
    (move_flight_date r date).nice_departure_date = r.nice_departure_date ∧
    (move_flight_date r date).nice_arrival_date = r.nice_arrival_date := by
  simp only [move_flight_date]
  split <;> simp

theorem move_flight_date_departure (r : Row) (date : Int) :
    (move_flight_date r date).scheduled_departure = ⟨date, r.scheduled_departure.min⟩ := by
  simp only [move_flight_date]
  split <;> rename_i h
  · show NaiveDT.mk _ _ = _
    congr 1
    omega
  · rfl

/-! ## Claims -/

/-- C10: for every record and target date, `move_flight_date` changes only
the `scheduled_departure` and `scheduled_arrival` fields; every other field
of the record is unchanged in the returned record. -/
theorem move_flight_date_frame (r : Row) (date : Int) :
    (move_flight_date r date).flight_number = r.flight_number ∧
    (move_flight_date r date).airline_name = r.airline_name ∧
    (move_flight_date r date).origin_airport = r.origin_airport ∧
    (move_flight_date r date).destination_airport = r.destination_airport ∧
    (move_flight_date r date).origin_timezone = r.origin_timezone ∧
    (move_flight_date r date).destination_timezone = r.destination_timezone ∧
    (move_flight_date r date).origin_airport_code = r.origin_airport_code ∧
    (move_flight_date r date).destination_airport_code = r.destination_airport_code ∧
    (move_flight_date r date).is_guess = r.is_guess ∧
    (move_flight_date r date).nice_departure_date = r.nice_departure_date ∧
    (move_flight_date r date).nice_arrival_date = r.nice_arrival_date :=
  move_flight_date_keeps r date

/-- C1 (amended): with `dayDelta != 0`, `move_flight_date` shifts departure
and arrival by exactly `dayDelta` days, preserving the day offset between
them and keeping each time-of-day; with `dayDelta == 0` it replaces the date
component of BOTH departure and arrival by the target date (keeping each
time-of-day), which collapses any pre-existing day offset instead of
preserving it. -/
theorem move_flight_date_characterization (r : Row) (date : Int) :
    (date - r.scheduled_departure.day ≠ 0 →
      move_flight_date r date =
        { r with
          scheduled_departure := ⟨date, r.scheduled_departure.min⟩
          scheduled_arrival :=
            ⟨r.scheduled_arrival.day + (date - r.scheduled_departure.day),
             r.scheduled_arrival.min⟩ } ∧
      (move_flight_date r date).scheduled_arrival.day
          - (move_flight_date r date).scheduled_departure.day
        = r.scheduled_arrival.day - r.scheduled_departure.day) ∧
    (date - r.scheduled_departure.day = 0 →
      move_flight_date r date =
        { r with
          scheduled_departure := ⟨date, r.scheduled_departure.min⟩
          scheduled_arrival := ⟨date, r.scheduled_arrival.min⟩ }) := by
  constructor
  · intro h
    have hb : move_flight_date r date =
        { r with
          scheduled_departure := ⟨date, r.scheduled_departure.min⟩
          scheduled_arrival :=
            ⟨r.scheduled_arrival.day + (date - r.scheduled_departure.day),
             r.scheduled_arrival.min⟩ } := by
      simp only [move_flight_date]
      rw [if_pos h]
      congr 2
      omega
    refine ⟨hb, ?_⟩
    rw [hb]
    simp
    omega
  · intro h
    simp only [move_flight_date]
    rw [if_neg (by omega)]

/-- Witness for C1 at the spec's cross-day example: departure
2024-10-23 14:30, arrival 2024-10-24 06:15, target 2024-10-25 gives
departure 2024-10-25 14:30 and arrival 2024-10-26 06:15. -/
theorem move_flight_date_characterization_witness :
    move_flight_date c1Row (civilToDays 2024 10 25) =
      { c1Row with
        scheduled_departure := ⟨civilToDays 2024 10 25, 870⟩
        scheduled_arrival := ⟨civilToDays 2024 10 26, 375⟩ } := by
  have h := (move_flight_date_characterization c1Row (civilToDays 2024 10 25)).1
    (by decide)
  exact h.1.trans (by decide)

/-- Counterexample for C1 as stated: with `dayDelta == 0` (target equal to
the departure date) the overnight record's +1 day offset between departure
and arrival is NOT preserved; the arrival is pulled back onto the departure
date. -/
theorem c1_counterexample :
    civilToDays 2024 10 23 - c1Row.scheduled_departure.day = 0 ∧
    c1Row.scheduled_arrival.day - c1Row.scheduled_departure.day = 1 ∧
    (move_flight_date c1Row (civilToDays 2024 10 23)).scheduled_arrival.day
        - (move_flight_date c1Row (civilToDays 2024 10 23)).scheduled_departure.day
      = 0 := by decide


/-- C3 (amended): `get_flight` fails with `notFound` exactly when the dated
query returns no records and the history query either returns no records or
itself fails (a history-call provider failure is converted into `notFound` by
the `except Exception` handler); a failure of the dated provider call is
propagated as a distinct resolution failure, and nothing is retried. -/
theorem get_flight_error_characterization (up : UpperMap) (off : TzOffset)
    (datedRes histRes : Except Unit (List RawRecord)) (fnRaw : Str) (date : Int) :
    (get_flight up off datedRes histRes fnRaw date = .error .providerError ↔
      datedRes = .error ()) ∧
    (get_flight up off datedRes histRes fnRaw date
        = .error (.notFound (parse_flight_number up fnRaw)) ↔
      (datedRes = .ok [] ∧ (histRes = .error () ∨ histRes = .ok []))) := by
  cases datedRes with
  | error e =>
    cases e
    simp [get_flight]
  | ok l =>
    by_cases hl : l = []
    · subst hl
      cases histRes with
      | error e =>
        cases e
        simp [get_flight]
      | ok h =>
        by_cases hh : h = []
        · subst hh
          simp [get_flight]
        · simp [get_flight, hh]
    · by_cases hlen : l.length > 1 <;>
        simp [get_flight, hl, hlen]

/-- Counterexample for C3 as stated: the dated query returns zero records and
the history provider call itself fails, yet the result is the `notFound`
error rather than a failure distinct from it. -/
theorem c3_counterexample :
    get_flight upAsciiMap (fun _ _ => 0) (.ok []) (.error ()) (codes "SQ327") 0
      = .error (.notFound (codes "SQ327")) := by rfl



/-- Loop-to-specification equivalence for the deduplicator, generalized over
the seen-set carried by the loop. -/
theorem drop_go_eq_dedupeSpec (l : List RawRecord) :
    ∀ seen : List Nat,
      drop_go seen l
        = dedupeSpec (l.filter (fun r => decide (r.departure_time ∉ seen))) := by
  induction l with
  | nil =>
    intro seen
    simp [drop_go, dedupeSpec]
  | cons x xs ih =>
    intro seen
    by_cases h : x.departure_time ∈ seen
    · simp only [drop_go, if_pos h]
      rw [ih seen]
      congr 1
      simp [List.filter_cons, h]
    · simp only [drop_go, if_neg h]
      rw [ih (x.departure_time :: seen)]
      have hx : decide (x.departure_time ∉ seen) = true := by
        simp [h]
      rw [List.filter_cons]
      simp only [hx, if_true]
      rw [dedupeSpec]
      congr 1
      rw [List.filter_filter]
      congr 1
      apply List.filter_congr
      intro a _
      simp only [List.mem_cons, not_or]
      simp

theorem drop_ununique_flights_eq_dedupeSpec (l : List RawRecord) :
    drop_ununique_flights l = dedupeSpec l := by
  rw [drop_ununique_flights, drop_go_eq_dedupeSpec]
  congr 1
  simp

theorem dedupeSpec_subset (l : List RawRecord) : ∀ r ∈ dedupeSpec l, r ∈ l := by
  induction l using dedupeSpec.induct with
  | case1 => simp [dedupeSpec]
  | case2 x xs ih =>
    intro r hr
    rw [dedupeSpec] at hr
    rcases List.mem_cons.mp hr with h | h
    · exact h ▸ List.mem_cons_self _ _
    · exact List.mem_cons_of_mem _ (List.mem_of_mem_filter (ih r h))

theorem dedupeSpec_pairwise (l : List RawRecord) :
    (dedupeSpec l).Pairwise (fun a b => a.departure_time ≠ b.departure_time) := by
  induction l using dedupeSpec.induct with
  | case1 => simp [dedupeSpec]
  | case2 x xs ih =>
    rw [dedupeSpec]
    refine List.Pairwise.cons ?_ ih
    intro y hy
    have hy2 := dedupeSpec_subset _ y hy
    have hne := List.of_mem_filter hy2
    simp only [decide_eq_true_eq] at hne
    exact fun hEq => hne hEq.symm

/-- C5: `drop_ununique_flights` keeps, in original order, the first record
seen for each distinct departure time-of-day (the filtering-out recursion of
the spec), and on two-record inputs returns one record when the departure
times coincide and both records, in order, when they differ. -/
theorem drop_ununique_flights_spec :
    (∀ l : List RawRecord, drop_ununique_flights l = dedupeSpec l) ∧
    (∀ r1 r2 : RawRecord, r1.departure_time = r2.departure_time →
      drop_ununique_flights [r1, r2] = [r1]) ∧
    (∀ r1 r2 : RawRecord, r1.departure_time ≠ r2.departure_time →
      drop_ununique_flights [r1, r2] = [r1, r2]) := by
  refine ⟨drop_ununique_flights_eq_dedupeSpec, ?_, ?_⟩
  · intro r1 r2 h
    simp [drop_ununique_flights, drop_go, h]
  · intro r1 r2 h
    have h2 : ¬ r2.departure_time = r1.departure_time := fun hEq => h hEq.symm
    simp [drop_ununique_flights, drop_go, h2]

/-- Witness for C5: records with departure times 14:30 and 14:30 yield one
record; 14:30 and 16:30 yield both, in input order. -/
theorem drop_ununique_flights_spec_witness :
    drop_ununique_flights [c5recA, c5recB] = [c5recA] ∧
    drop_ununique_flights [c5recA, c5recC] = [c5recA, c5recC] :=
  ⟨drop_ununique_flights_spec.2.1 c5recA c5recB (by decide),
   drop_ununique_flights_spec.2.2 c5recA c5recC (by decide)⟩

/-- C4 (amended): the deduplication invariant is enforced only on the
historical fallback path of `get_flight`: there the surviving candidate set
`drop_ununique_flights h` has pairwise-distinct departure times-of-day and
the returned rows are in bijection with it; the exact-date path applies no
deduplication. -/
theorem get_flight_fallback_dedup_invariant (up : UpperMap) (off : TzOffset) (fnRaw : Str)
    (date : Int) (h : List RawRecord) (hne : h ≠ []) :
    (drop_ununique_flights h).Pairwise
      (fun a b => a.departure_time ≠ b.departure_time) ∧
    (get_flight up off (.ok []) (.ok h) fnRaw date).map List.length
      = .ok (drop_ununique_flights h).length := by
  constructor
  · rw [drop_ununique_flights_eq_dedupeSpec]
    exact dedupeSpec_pairwise h
  · simp [get_flight, hne, update_df_timezones, parse_nice_datetime, Except.map]

/-- Witness for C4 at a concrete one-record history. -/
theorem get_flight_fallback_dedup_invariant_witness :
    (drop_ununique_flights [c4hrec]).Pairwise
      (fun a b => a.departure_time ≠ b.departure_time) ∧
    (get_flight upAsciiMap (fun _ _ => 0) (.ok []) (.ok [c4hrec]) (codes "SQ327")
        (civilToDays 2024 10 23)).map List.length
      = .ok (drop_ununique_flights [c4hrec]).length :=
  get_flight_fallback_dedup_invariant upAsciiMap (fun _ _ => 0) (codes "SQ327")
    (civilToDays 2024 10 23) [c4hrec] (by simp)

/-- Counterexample for C4 as stated: a successful exact-date query whose
provider response contains the same record twice yields two result records
with identical departure time-of-day (no deduplication on this path). -/
theorem c4_counterexample :
    (get_flight upAsciiMap (fun _ _ => 0) (.ok [c4rec, c4rec]) (.ok []) (codes "SQ327")
        (civilToDays 2024 10 23)).map
      (fun rows => rows.map (fun r => r.scheduled_departure.min))
      = .ok [870, 870] := by rfl



/-- Indexed mapping over the whole list equals the direct map. -/
theorem range_map_parse (l : List RawRecord) :
    (List.range l.length).map (fun i => parse_flight_info l i)
      = l.map parse_flight_info_rec := by
  induction l with
  | nil => simp
  | cons x xs ih =>
    rw [List.length_cons, List.range_succ_eq_map, List.map_cons, List.map_map]
    congr 1

theorem pipeline_exact (off : TzOffset) (l : List RawRecord) :
    parse_nice_datetime (update_df_timezones off
      ((l.map parse_flight_info_rec).map (fun r => { r with is_guess := false })))
      = l.map (canonicalize_exact off) := by
  simp only [update_df_timezones, parse_nice_datetime, List.map_map]
  rfl

theorem pipeline_guess (off : TzOffset) (date : Int) (l : List RawRecord) :
    parse_nice_datetime (update_df_timezones off
      (((l.map parse_flight_info_rec).map (fun r => { r with is_guess := true })).map
        (fun r => move_flight_date r date)))
      = l.map (canonicalize_guess off date) := by
  simp only [update_df_timezones, parse_nice_datetime, List.map_map]
  rfl

theorem get_flight_exact_eq (up : UpperMap) (off : TzOffset) (histRes : Except Unit (List RawRecord))
    (fnRaw : Str) (date : Int) (l : List RawRecord) (hl : l ≠ []) :
    get_flight up off (.ok l) histRes fnRaw date
      = .ok (l.map (canonicalize_exact off)) := by
  simp only [get_flight]
  rw [if_neg hl]
  by_cases h2 : l.length > 1
  · rw [if_pos h2, range_map_parse]
    exact congrArg Except.ok (pipeline_exact off l)
  · rw [if_neg h2]
    obtain ⟨x, rfl⟩ : ∃ x, l = [x] := by
      rcases l with _ | ⟨x, _ | ⟨y, t⟩⟩
      · exact absurd rfl hl
      · exact ⟨x, rfl⟩
      · simp at h2
    have hsingle : [parse_flight_info [x] 0] = [x].map parse_flight_info_rec := rfl
    rw [hsingle]
    exact congrArg Except.ok (pipeline_exact off [x])

theorem get_flight_fallback_eq (up : UpperMap) (off : TzOffset) (fnRaw : Str) (date : Int)
    (h : List RawRecord) (hh : h ≠ []) :
    get_flight up off (.ok []) (.ok h) fnRaw date
      = .ok ((drop_ununique_flights h).map (canonicalize_guess off date)) := by
  simp only [get_flight, if_true]
  rw [if_neg hh, range_map_parse]
  exact congrArg Except.ok (pipeline_guess off date (drop_ununique_flights h))

theorem canonicalize_exact_is_guess (off : TzOffset) (r : RawRecord) :
    (canonicalize_exact off r).is_guess = false := by
  simp [canonicalize_exact, parse_nice_row, update_row_timezones]

theorem canonicalize_guess_is_guess (off : TzOffset) (date : Int) (r : RawRecord) :
    (canonicalize_guess off date r).is_guess = true := by
  have h := (move_flight_date_keeps
    { parse_flight_info_rec r with is_guess := true } date).2.2.2.2.2.2.2.2.1
  simp [canonicalize_guess, parse_nice_row, update_row_timezones, h]

theorem drop_ununique_flights_ne_nil (h : List RawRecord) (hh : h ≠ []) :
    drop_ununique_flights h ≠ [] := by
  rcases h with _ | ⟨x, xs⟩
  · exact absurd rfl hh
  · simp [drop_ununique_flights, drop_go]

/-- C2 (amended): on the exact-date path `get_flight` returns exactly the
provider's records in canonical form with `is_guess = false`; on the
historical fallback path it returns the deduplicated historical records with
`is_guess = true`, each projected onto the requested date (the departure
before timezone reconciliation is exactly the requested day with the
historical time-of-day; the final local departure date may then differ from
the requested date by the origin-zone offset); and on success the result is
never empty. -/
theorem get_flight_success_characterization (up : UpperMap) (off : TzOffset)
    (histRes : Except Unit (List RawRecord)) (fnRaw : Str) (date : Int) :
    (∀ l : List RawRecord, l ≠ [] →
      get_flight up off (.ok l) histRes fnRaw date
        = .ok (l.map (canonicalize_exact off)) ∧
      ∀ row ∈ l.map (canonicalize_exact off), row.is_guess = false) ∧
    (∀ h : List RawRecord, h ≠ [] →
      get_flight up off (.ok []) (.ok h) fnRaw date
        = .ok ((drop_ununique_flights h).map (canonicalize_guess off date)) ∧
      (∀ row ∈ (drop_ununique_flights h).map (canonicalize_guess off date),
        row.is_guess = true) ∧
      (drop_ununique_flights h).map (canonicalize_guess off date) ≠ []) ∧
    (∀ r : RawRecord,
      (move_flight_date { parse_flight_info_rec r with is_guess := true }
        date).scheduled_departure = ⟨date, r.departure_time⟩) ∧
    (∀ (datedRes : Except Unit (List RawRecord)) (rows : List Row),
      get_flight up off datedRes histRes fnRaw date = .ok rows → rows ≠ []) := by
  refine ⟨?_, ?_, ?_, ?_⟩
  · intro l hl
    refine ⟨get_flight_exact_eq up off histRes fnRaw date l hl, ?_⟩
    intro row hrow
    obtain ⟨r, _, rfl⟩ := List.mem_map.mp hrow
    exact canonicalize_exact_is_guess off r
  · intro h hh
    refine ⟨get_flight_fallback_eq up off fnRaw date h hh, ?_, ?_⟩
    · intro row hrow
      obtain ⟨r, _, rfl⟩ := List.mem_map.mp hrow
      exact canonicalize_guess_is_guess off date r
    · simp only [ne_eq, List.map_eq_nil_iff]
      exact drop_ununique_flights_ne_nil h hh
  · intro r
    exact move_flight_date_departure
      { parse_flight_info_rec r with is_guess := true } date
  · intro datedRes rows hok
    cases datedRes with
    | error e => simp [get_flight] at hok
    | ok l =>
      by_cases hl : l = []
      · subst hl
        cases histRes with
        | error e => simp [get_flight] at hok
        | ok h =>
          by_cases hh : h = []
          · subst hh
            simp [get_flight] at hok
          · rw [get_flight_fallback_eq up off fnRaw date h hh] at hok
            cases hok
            simp only [ne_eq, List.map_eq_nil_iff]
            exact drop_ununique_flights_ne_nil h hh
      · rw [get_flight_exact_eq up off histRes fnRaw date l hl] at hok
        cases hok
        simp only [ne_eq, List.map_eq_nil_iff]
        exact hl

/-- Witness for C2 on a one-record exact-date response. -/
theorem get_flight_success_characterization_witness :
    get_flight upAsciiMap c2off (.ok [c2rec]) (.ok []) (codes "SQ327")
        (civilToDays 2024 10 23)
      = .ok ([c2rec].map (canonicalize_exact c2off)) :=
  ((get_flight_success_characterization upAsciiMap c2off (.ok []) (codes "SQ327")
      (civilToDays 2024 10 23)).1 [c2rec] (by simp)).1

/-- Counterexample for C2 as stated: on the fallback path with a UTC+8
origin zone and a 22:00 historical departure, the returned record's local
departure date is the day AFTER the requested date, so the result is not
"records whose departure date is shifted to the requested date". -/
theorem c2_counterexample :
    (get_flight upAsciiMap c2off (.ok []) (.ok [c2rec]) (codes "SQ327")
        (civilToDays 2024 10 23)).map
      (fun rows => rows.map (fun r => (r.is_guess, r.scheduled_departure.day)))
      = .ok [(true, civilToDays 2024 10 23 + 1)] ∧
    civilToDays 2024 10 23 + 1 ≠ civilToDays 2024 10 23 := by
  constructor
  · rfl
  · decide



/-! ## Character-level lemmas for the identifier normalizer -/

theorem upAscii_idem (c : Nat) : upAscii (upAscii c) = upAscii c := by
  unfold upAscii
  by_cases h : 97 ≤ c ∧ c ≤ 122
  · rw [if_pos h, if_neg (by omega)]
  · rw [if_neg h, if_neg h]

theorem upAscii_of_isUpperAZ {c : Nat} (h : isUpperAZ c = true) : upAscii c = c := by
  unfold isUpperAZ at h
  simp only [decide_eq_true_eq] at h
  unfold upAscii
  rw [if_neg (by omega)]

theorem upAscii_of_isDigit09 {c : Nat} (h : isDigit09 c = true) : upAscii c = c := by
  unfold isDigit09 at h
  simp only [decide_eq_true_eq] at h
  unfold upAscii
  rw [if_neg (by omega)]

theorem isUpperAZ_false_of_isDigit09 {c : Nat} (h : isDigit09 c = true) :
    isUpperAZ c = false := by
  unfold isDigit09 at h
  unfold isUpperAZ
  simp only [decide_eq_true_eq] at h
  simp only [decide_eq_false_iff_not]
  omega

theorem isAlnumAscii_upAscii (c : Nat) : isAlnumAscii (upAscii c) = isAlnumAscii c := by
  rw [Bool.eq_iff_iff]
  unfold isAlnumAscii isUpperAZ isDigit09 upAscii
  by_cases h : 97 ≤ c ∧ c ≤ 122
  · rw [if_pos h]
    simp only [Bool.or_eq_true, decide_eq_true_eq]
    constructor <;> intro h2 <;> omega
  · rw [if_neg h]

theorem takeWhile_of_all {p : Nat → Bool} {l : Str} (h : ∀ c ∈ l, p c = true) :
    l.takeWhile p = l := by
  have h2 := @List.takeWhile_append_of_pos Nat p l [] (fun a ha => h a ha)
  simpa using h2

theorem dropWhile_of_all {p : Nat → Bool} {l : Str} (h : ∀ c ∈ l, p c = true) :
    l.dropWhile p = [] := by
  have h2 := @List.dropWhile_append_of_pos Nat p l [] (fun a ha => h a ha)
  simpa using h2

theorem mem_takeWhile_sat {p : Nat → Bool} {l : Str} {a : Nat}
    (h : a ∈ l.takeWhile p) : p a = true :=
  List.all_eq_true.mp List.all_takeWhile a h

theorem cleanedOf_map_upAscii (s : Str) :
    cleanedOf (s.map upAscii) = cleanedOf s := by
  unfold cleanedOf
  rw [List.filter_map, List.map_map]
  have h1 : isAlnumAscii ∘ upAscii = isAlnumAscii := funext isAlnumAscii_upAscii
  rw [h1]
  exact List.map_congr_left (fun a _ => upAscii_idem a)

theorem cleanedOf_of_clean {s : Str}
    (h : ∀ c ∈ s, (isUpperAZ c || isDigit09 c) = true) : cleanedOf s = s := by
  unfold cleanedOf
  have hf : s.filter isAlnumAscii = s := by
    rw [List.filter_eq_self]
    intro a ha
    unfold isAlnumAscii
    simp [h a ha]
  rw [hf]
  have hfix : ∀ a ∈ s, upAscii a = id a := by
    intro a ha
    have h2 : isUpperAZ a = true ∨ isDigit09 a = true := by simpa using h a ha
    rcases h2 with h2 | h2
    · exact upAscii_of_isUpperAZ h2
    · exact upAscii_of_isDigit09 h2
  rw [List.map_congr_left hfix, List.map_id]

theorem map_upAscii_of_clean {s : Str}
    (h : ∀ c ∈ s, (isUpperAZ c || isDigit09 c) = true) : s.map upAscii = s := by
  have hfix : ∀ a ∈ s, upAscii a = id a := by
    intro a ha
    have h2 : isUpperAZ a = true ∨ isDigit09 a = true := by simpa using h a ha
    rcases h2 with h2 | h2
    · exact upAscii_of_isUpperAZ h2
    · exact upAscii_of_isDigit09 h2
  rw [List.map_congr_left hfix, List.map_id]

theorem map_upAscii_map_upAscii (s : Str) :
    (s.map upAscii).map upAscii = s.map upAscii := by
  rw [List.map_map]
  exact List.map_congr_left (fun a _ => upAscii_idem a)

theorem upAsciiMap_upAscii (c : Nat) : upAsciiMap c = [upAscii c] := by
  unfold upAsciiMap upAscii
  split <;> rfl

theorem upAscii_le127 {c : Nat} (h : c ≤ 127) : upAscii c ≤ 127 := by
  unfold upAscii
  split <;> omega

theorem le127_of_isUpperAZ {c : Nat} (h : isUpperAZ c = true) : c ≤ 127 := by
  unfold isUpperAZ at h
  simp only [decide_eq_true_eq] at h
  omega

theorem le127_of_isDigit09 {c : Nat} (h : isDigit09 c = true) : c ≤ 127 := by
  unfold isDigit09 at h
  simp only [decide_eq_true_eq] at h
  omega

/-- On strings whose characters all uppercase character-wise within ASCII,
the full Unicode uppercasing coincides with the ASCII map. -/
theorem pyUpper_eq_map {up : UpperMap} : ∀ {s : Str},
    (∀ c ∈ s, up c = [upAscii c]) → pyUpper up s = s.map upAscii := by
  intro s
  induction s with
  | nil =>
    intro _
    rfl
  | cons x xs ih =>
    intro h
    have hx := h x (List.mem_cons_self x xs)
    simp only [pyUpper, List.map_cons, hx]
    rw [ih (fun c hc => h c (List.mem_cons_of_mem x hc))]
    rfl



theorem dropWhile_eq_cons_not {p : Nat → Bool} :
    ∀ {l : Str} {d : Nat} {tl : Str}, l.dropWhile p = d :: tl → p d = false := by
  intro l
  induction l with
  | nil =>
    intro d tl h
    simp [List.dropWhile] at h
  | cons x xs ih =>
    intro d tl h
    by_cases hx : p x
    · rw [List.dropWhile_cons_of_pos hx] at h
      exact ih h
    · rw [List.dropWhile_cons_of_neg hx] at h
      cases h
      simpa using hx

theorem dropWhile_dropWhile_self {p : Nat → Bool} (l : Str) :
    (l.dropWhile p).dropWhile p = l.dropWhile p := by
  rcases hE : l.dropWhile p with _ | ⟨d, tl⟩
  · simp
  · rw [List.dropWhile_cons_of_neg (by simp [dropWhile_eq_cons_not hE])]

/-- Normal form of `parse_flight_number` when the regex matches: the cleaned
input decomposes into a non-empty uppercase-letter run followed by a
non-empty digit run reaching the end of the cleaned string.  The case table
is irrelevant on this branch. -/
theorem parse_match_eq (up : UpperMap) {s ls ds : Str} (hc : cleanedOf s = ls ++ ds)
    (hls : ls ≠ []) (hlsAll : ∀ c ∈ ls, isUpperAZ c = true)
    (hds : ds ≠ []) (hdsAll : ∀ c ∈ ds, isDigit09 c = true) :
    parse_flight_number up s = ls ++ ds.dropWhile (fun c => decide (c = 48)) := by
  obtain ⟨d, tl, rfl⟩ := List.exists_cons_of_ne_nil hds
  have hdneg : ¬ isUpperAZ d = true := by
    simp [isUpperAZ_false_of_isDigit09 (hdsAll d (List.mem_cons_self d tl))]
  have htake : (cleanedOf s).takeWhile isUpperAZ = ls := by
    rw [hc, List.takeWhile_append_of_pos (fun a ha => hlsAll a ha),
      List.takeWhile_cons_of_neg hdneg, List.append_nil]
  have hdrop : (cleanedOf s).dropWhile isUpperAZ = d :: tl := by
    rw [hc, List.dropWhile_append_of_pos (fun a ha => hlsAll a ha),
      List.dropWhile_cons_of_neg hdneg]
  have hnum : ((cleanedOf s).dropWhile isUpperAZ).takeWhile isDigit09 = d :: tl := by
    rw [hdrop]
    exact takeWhile_of_all hdsAll
  simp only [parse_flight_number]
  rw [htake, hnum, if_pos ⟨hls, List.cons_ne_nil d tl⟩]

/-- Passthrough branch of `parse_flight_number`: when the cleaned input has
no leading letter run or no digit run after it, the original input is
returned uppercased by the full case mapping. -/
theorem parse_nomatch_eq (up : UpperMap) {s : Str}
    (h : (cleanedOf s).takeWhile isUpperAZ = [] ∨
      ((cleanedOf s).dropWhile isUpperAZ).takeWhile isDigit09 = []) :
    parse_flight_number up s = pyUpper up s := by
  simp only [parse_flight_number]
  rw [if_neg (by rcases h with h | h <;> simp [h])]

/-- A string already of the canonical letters-then-no-leading-zero-digits
shape is a fixed point of `parse_flight_number`, under a case table that
acts character-wise on ASCII (as the Unicode one does). -/
theorem parse_of_canonical (up : UpperMap)
    (hup : ∀ c, c ≤ 127 → up c = [upAscii c]) {ls n2 : Str}
    (hls : ∀ c ∈ ls, isUpperAZ c = true)
    (hn2 : ∀ c ∈ n2, isDigit09 c = true)
    (hdrop : n2.dropWhile (fun c => decide (c = 48)) = n2)
    (hlsne : ls ≠ []) :
    parse_flight_number up (ls ++ n2) = ls ++ n2 := by
  by_cases h2 : n2 = []
  · subst h2
    rw [List.append_nil]
    have hcl : ∀ c ∈ ls, (isUpperAZ c || isDigit09 c) = true := by
      intro c hc
      simp [hls c hc]
    have hcond : (cleanedOf ls).takeWhile isUpperAZ = [] ∨
        ((cleanedOf ls).dropWhile isUpperAZ).takeWhile isDigit09 = [] := by
      right
      rw [cleanedOf_of_clean hcl, dropWhile_of_all hls]
      rfl
    rw [parse_nomatch_eq up hcond]
    rw [pyUpper_eq_map (fun c hc => hup c (le127_of_isUpperAZ (hls c hc)))]
    exact map_upAscii_of_clean hcl
  · have hcl : ∀ c ∈ ls ++ n2, (isUpperAZ c || isDigit09 c) = true := by
      intro c hc
      rcases List.mem_append.mp hc with hc | hc
      · simp [hls c hc]
      · simp [hn2 c hc]
    rw [parse_match_eq up (cleanedOf_of_clean hcl) hlsne hls h2 hn2, hdrop]

/-- C6 (amended): `parse_flight_number` strips non-alphanumerics, uppercases,
splits the cleaned input into the maximal leading letter run and the digit
run after it, and strips ALL leading zeros from the digit run — a digit run
consisting entirely of zeros is removed completely (so "SQ000" maps to "SQ",
not to "SQ0"); when the cleaned input has no letters-then-digits prefix the
original input is returned uppercased (full Unicode `str.upper`, the `up`
parameter) and otherwise unchanged.  The concrete examples go through the
match branch, so they hold under every case table. -/
theorem parse_flight_number_characterization :
    (∀ (up : UpperMap) (s ls ds : Str), cleanedOf s = ls ++ ds → ls ≠ [] →
      (∀ c ∈ ls, isUpperAZ c = true) → ds ≠ [] → (∀ c ∈ ds, isDigit09 c = true) →
      parse_flight_number up s = ls ++ ds.dropWhile (fun c => decide (c = 48))) ∧
    (∀ (up : UpperMap) (s : Str), ((cleanedOf s).takeWhile isUpperAZ = [] ∨
        ((cleanedOf s).dropWhile isUpperAZ).takeWhile isDigit09 = []) →
      parse_flight_number up s = pyUpper up s) ∧
    (∀ up : UpperMap, parse_flight_number up (codes "SQ0327") = codes "SQ327") ∧
    (∀ up : UpperMap, parse_flight_number up (codes "sq 327") = codes "SQ327") ∧
    (∀ up : UpperMap, parse_flight_number up (codes "SQ-327") = codes "SQ327") ∧
    (∀ up : UpperMap, parse_flight_number up (codes "SQ000") = codes "SQ") := by
  have hmatch : ∀ (up : UpperMap) (s ls ds : Str), cleanedOf s = ls ++ ds →
      ls ≠ [] → (∀ c ∈ ls, isUpperAZ c = true) → ds ≠ [] →
      (∀ c ∈ ds, isDigit09 c = true) →
      parse_flight_number up s = ls ++ ds.dropWhile (fun c => decide (c = 48)) :=
    fun up s ls ds hc h1 h2 h3 h4 => parse_match_eq up hc h1 h2 h3 h4
  refine ⟨hmatch, fun up s h => parse_nomatch_eq up h, ?_, ?_, ?_, ?_⟩
  · exact fun up => (hmatch up (codes "SQ0327") (codes "SQ") (codes "0327")
      (by decide) (by decide) (by decide) (by decide) (by decide)).trans (by decide)
  · exact fun up => (hmatch up (codes "sq 327") (codes "SQ") (codes "327")
      (by decide) (by decide) (by decide) (by decide) (by decide)).trans (by decide)
  · exact fun up => (hmatch up (codes "SQ-327") (codes "SQ") (codes "327")
      (by decide) (by decide) (by decide) (by decide) (by decide)).trans (by decide)
  · exact fun up => (hmatch up (codes "SQ000") (codes "SQ") (codes "000")
      (by decide) (by decide) (by decide) (by decide) (by decide)).trans (by decide)

/-- Witness for C6: "AB0012" decomposes into letters "AB" and digits "0012",
whose leading zeros are stripped. -/
theorem parse_flight_number_characterization_witness :
    parse_flight_number upAsciiMap (codes "AB0012")
      = codes "AB" ++ (codes "0012").dropWhile (fun c => decide (c = 48)) :=
  parse_flight_number_characterization.1 upAsciiMap (codes "AB0012") (codes "AB")
    (codes "0012") (by decide) (by decide) (by decide) (by decide) (by decide)

/-- Counterexample for C6 as stated: a digit run of all zeros does NOT reduce
to a single "0"; it is stripped entirely, so "SQ000" normalizes to "SQ"
rather than the claimed "SQ0".  The input is ASCII and the result comes from
the match branch, which never consults the case table. -/
theorem c6_counterexample :
    parse_flight_number upAsciiMap (codes "SQ000") = codes "SQ" ∧
    codes "SQ" ≠ codes "SQ0" := by decide

/-- C7 (amended): `parse_flight_number` is idempotent on every input whose
characters are ASCII, under any case table that acts character-wise on ASCII
(as the Unicode one does).  It is NOT idempotent in general: a character
with a multi-character uppercase expansion in the passthrough branch can
produce a letters-and-zeros string that a second application reduces
further. -/
theorem parse_flight_number_idempotent (up : UpperMap)
    (hup : ∀ c, c ≤ 127 → up c = [upAscii c]) (s : Str)
    (hs : ∀ c ∈ s, c ≤ 127) :
    parse_flight_number up (parse_flight_number up s)
      = parse_flight_number up s := by
  by_cases h : (cleanedOf s).takeWhile isUpperAZ ≠ [] ∧
      ((cleanedOf s).dropWhile isUpperAZ).takeWhile isDigit09 ≠ []
  · have hout : parse_flight_number up s
        = (cleanedOf s).takeWhile isUpperAZ ++
          (((cleanedOf s).dropWhile isUpperAZ).takeWhile isDigit09).dropWhile
            (fun c => decide (c = 48)) := by
      simp only [parse_flight_number]
      rw [if_pos h]
    rw [hout]
    apply parse_of_canonical up hup
    · exact fun c hc => mem_takeWhile_sat hc
    · exact fun c hc =>
        mem_takeWhile_sat (List.Sublist.mem hc (List.dropWhile_sublist _))
    · exact dropWhile_dropWhile_self _
    · exact h.1
  · have hout : parse_flight_number up s = pyUpper up s := by
      simp only [parse_flight_number]
      rw [if_neg h]
    have hb : pyUpper up s = s.map upAscii :=
      pyUpper_eq_map (fun c hc => hup c (hs c hc))
    rw [hout, hb]
    have hcond2 : (cleanedOf (s.map upAscii)).takeWhile isUpperAZ = [] ∨
        ((cleanedOf (s.map upAscii)).dropWhile isUpperAZ).takeWhile isDigit09
          = [] := by
      rw [cleanedOf_map_upAscii]
      rcases not_and_or.mp h with h2 | h2
      · exact Or.inl (not_ne_iff.mp h2)
      · exact Or.inr (not_ne_iff.mp h2)
    rw [parse_nomatch_eq up hcond2]
    have hb2 : pyUpper up (s.map upAscii) = (s.map upAscii).map upAscii := by
      apply pyUpper_eq_map
      intro c hc
      obtain ⟨a, ha, rfl⟩ := List.mem_map.mp hc
      exact hup (upAscii a) (upAscii_le127 (hs a ha))
    rw [hb2]
    exact map_upAscii_map_upAscii s

/-- Witness for C7 at an ASCII input under the ASCII case-table fragment. -/
theorem parse_flight_number_idempotent_witness :
    parse_flight_number upAsciiMap (parse_flight_number upAsciiMap (codes "sq 327"))
      = parse_flight_number upAsciiMap (codes "sq 327") :=
  parse_flight_number_idempotent upAsciiMap (fun c _ => upAsciiMap_upAscii c)
    (codes "sq 327") (by decide)

/-- Counterexample for C7 as stated: with the real case table, where ß
(U+00DF) uppercases to "SS", the passthrough branch gives
parse_flight_number("ß0") = "SS0", but a second application matches "SS0"
and strips the zero run entirely, giving "SS" — idempotence fails. -/
theorem c7_counterexample :
    parse_flight_number upWithSharpS (codes "ß0") = codes "SS0" ∧
    parse_flight_number upWithSharpS (codes "SS0") = codes "SS" ∧
    parse_flight_number upWithSharpS
        (parse_flight_number upWithSharpS (codes "ß0"))
      ≠ parse_flight_number upWithSharpS (codes "ß0") := by decide


/-- C8 (amended): manual-entry validation rejects a submission with a missing
required field (reporting the first one, in the fixed field order) or an
airport code not matching the three-uppercase-letter shape ("sin" rejected,
"SIN" accepted); datetimes are normalized by replacing "T" with a space and
must then parse under `strptime("%Y-%m-%d %H:%M")`.  Per the compiled
str-pattern regex that is not only the literal "YYYY-MM-DD HH:MM" shape: the
year is any four Unicode decimal digits, month, day, hour and minute may be
written with one or two digits (the second day/hour/minute digit again any
Unicode digit), and the separating space is one or more Unicode whitespace
characters; anything the pattern (followed by the constructor's range
checks) does not accept is rejected. -/
theorem create_manual_event_characterization :
    (∀ (ud : UnicodeData) (d : ManualData) (f : Str),
      firstMissingField d = some f →
      create_manual_event_validate ud d = .error (.missingField f)) ∧
    (∀ d : ManualData, firstMissingField d = none ↔
      (d.flight_number ≠ [] ∧ d.airline_name ≠ [] ∧ d.origin_airport ≠ [] ∧
       d.origin_airport_code ≠ [] ∧ d.destination_airport ≠ [] ∧
       d.destination_airport_code ≠ [] ∧ d.scheduled_departure ≠ [] ∧
       d.scheduled_arrival ≠ [] ∧ d.origin_timezone ≠ [] ∧
       d.destination_timezone ≠ [])) ∧
    (∀ (ud : UnicodeData) (d : ManualData),
      matchesAZ3 d.origin_airport_code = false →
      ∀ r, create_manual_event_validate ud d ≠ .ok r) ∧
    (∀ (ud : UnicodeData) (d : ManualData), firstMissingField d = none →
      matchesAZ3 d.origin_airport_code = true →
      matchesAZ3 d.destination_airport_code = true →
      ∀ pd pa, strptime_ymd_hm ud (t_to_space d.scheduled_departure) = some pd →
        strptime_ymd_hm ud (t_to_space d.scheduled_arrival) = some pa →
        create_manual_event_validate ud d
          = .ok { d with
                  scheduled_departure := t_to_space d.scheduled_departure,
                  scheduled_arrival := t_to_space d.scheduled_arrival }) ∧
    (∀ (ud : UnicodeData) (d : ManualData), firstMissingField d = none →
      matchesAZ3 d.origin_airport_code = true →
      matchesAZ3 d.destination_airport_code = true →
      strptime_ymd_hm ud (t_to_space d.scheduled_departure) = none →
      create_manual_event_validate ud d = .error .invalidDatetime) ∧
    matchesAZ3 (codes "SIN") = true ∧
    matchesAZ3 (codes "sin") = false ∧
    t_to_space (codes "2024-10-23T14:30") = codes "2024-10-23 14:30" ∧
    strptime_ymd_hm udSample (codes "2024-10-23 14:30")
      = some (2024, 10, 23, 14, 30) ∧
    strptime_ymd_hm udSample (codes "2024-1-23 4:30")
      = some (2024, 1, 23, 4, 30) ∧
    strptime_ymd_hm udSample (codes "٢٠٢٤-10-23 14:30")
      = some (2024, 10, 23, 14, 30) ∧
    strptime_ymd_hm udSample (codes "2024-10-23\u00A014:30")
      = some (2024, 10, 23, 14, 30) ∧
    strptime_ymd_hm udSample (codes "2024-13-01 10:00") = none ∧
    strptime_ymd_hm udSample (codes "2024/10/23 14:30") = none := by
  refine ⟨?_, ?_, ?_, ?_, ?_, by decide, by decide, by decide, by decide,
    by decide, by decide, by decide, by decide, by decide⟩
  · intro ud d f h
    simp [create_manual_event_validate, h]
  · intro d
    constructor
    · intro h
      unfold firstMissingField at h
      by_cases h1 : d.flight_number = []
      · rw [if_pos h1] at h
        cases h
      rw [if_neg h1] at h
      by_cases h2 : d.airline_name = []
      · rw [if_pos h2] at h
        cases h
      rw [if_neg h2] at h
      by_cases h3 : d.origin_airport = []
      · rw [if_pos h3] at h
        cases h
      rw [if_neg h3] at h
      by_cases h4 : d.origin_airport_code = []
      · rw [if_pos h4] at h
        cases h
      rw [if_neg h4] at h
      by_cases h5 : d.destination_airport = []
      · rw [if_pos h5] at h
        cases h
      rw [if_neg h5] at h
      by_cases h6 : d.destination_airport_code = []
      · rw [if_pos h6] at h
        cases h
      rw [if_neg h6] at h
      by_cases h7 : d.scheduled_departure = []
      · rw [if_pos h7] at h
        cases h
      rw [if_neg h7] at h
      by_cases h8 : d.scheduled_arrival = []
      · rw [if_pos h8] at h
        cases h
      rw [if_neg h8] at h
      by_cases h9 : d.origin_timezone = []
      · rw [if_pos h9] at h
        cases h
      rw [if_neg h9] at h
      by_cases h10 : d.destination_timezone = []
      · rw [if_pos h10] at h
        cases h
      rw [if_neg h10] at h
      exact ⟨h1, h2, h3, h4, h5, h6, h7, h8, h9, h10⟩
    · rintro ⟨h1, h2, h3, h4, h5, h6, h7, h8, h9, h10⟩
      unfold firstMissingField
      rw [if_neg h1, if_neg h2, if_neg h3, if_neg h4, if_neg h5, if_neg h6,
        if_neg h7, if_neg h8, if_neg h9, if_neg h10]
  · intro ud d hm r
    cases hF : firstMissingField d <;>
      simp [create_manual_event_validate, hF, hm]
  · intro ud d hF h1 h2 pd pa hdep harr
    simp [create_manual_event_validate, hF, h1, h2, hdep, harr]
  · intro ud d hF h1 h2 hdep
    simp [create_manual_event_validate, hF, h1, h2, hdep]

/-- Witness for C8 at a valid submission with a datetime-local departure. -/
theorem create_manual_event_characterization_witness :
    create_manual_event_validate udSample c8good
      = .ok { c8good with
              scheduled_departure := t_to_space c8good.scheduled_departure,
              scheduled_arrival := t_to_space c8good.scheduled_arrival } :=
  create_manual_event_characterization.2.2.2.1 udSample c8good (by decide)
    (by decide) (by decide) (2024, 10, 23, 14, 30) (2024, 10, 23, 16, 45)
    (by decide) (by decide)

/-- Counterexample for C8 as stated: the departure string "2024-1-23 4:30" is
in neither "YYYY-MM-DDTHH:MM" nor "YYYY-MM-DD HH:MM" format (month and hour
are single-digit), yet the submission is accepted rather than rejected. -/
theorem c8_counterexample :
    create_manual_event_validate udSample c8lenient = .ok c8lenient ∧
    c8lenient.scheduled_departure = codes "2024-1-23 4:30" := by
  constructor
  · rfl
  · rfl

/-! ## Infix lemmas for the serialized calendar document -/

theorem isInfix_appendR {t l2 : Str} (l1 : Str) (h : t <:+: l2) : t <:+: l1 ++ l2 := by
  obtain ⟨u, v, huv⟩ := h
  exact ⟨l1 ++ u, v, by rw [← huv]; simp⟩

theorem isInfix_appendL {t l1 : Str} (l2 : Str) (h : t <:+: l1) : t <:+: l1 ++ l2 := by
  obtain ⟨u, v, huv⟩ := h
  exact ⟨u, v ++ l2, by rw [← huv]; simp⟩

theorem isInfix_append_self (l t : Str) : t <:+: l ++ t := ⟨l, [], by simp⟩

theorem joinCrlf_infix {t : Str} (line : Str) {ls : List Str} (hmem : line ∈ ls)
    (h : t <:+: line) : t <:+: joinCrlf ls := by
  induction ls with
  | nil => simp at hmem
  | cons x xs ih =>
    simp only [joinCrlf]
    rcases List.mem_cons.mp hmem with rfl | hmem2
    · exact isInfix_appendL _ (isInfix_appendL _ h)
    · exact isInfix_appendR _ (ih hmem2)



/-- C9: for every record and generation instant, `make_ical_event` produces a
single-event calendar document containing BEGIN:VCALENDAR, BEGIN:VEVENT, the
flight number, the airline name and both airport codes; its DTSTART line is
the departure civil time localized to (tagged with) the origin timezone, its
DTEND line the arrival civil time tagged with the destination timezone, and
the status is fixed to CONFIRMED. -/
theorem make_ical_event_contents (now : NaiveDT) (data : Row) :
    codes "BEGIN:VCALENDAR" <:+: make_ical_event now data ∧
    codes "BEGIN:VEVENT" <:+: make_ical_event now data ∧
    data.flight_number <:+: make_ical_event now data ∧
    data.airline_name <:+: make_ical_event now data ∧
    data.origin_airport_code <:+: make_ical_event now data ∧
    data.destination_airport_code <:+: make_ical_event now data ∧
    (codes "DTSTART;TZID=" ++ data.origin_timezone ++ [58] ++
      icalFmtDT data.scheduled_departure) <:+: make_ical_event now data ∧
    (codes "DTEND;TZID=" ++ data.destination_timezone ++ [58] ++
      icalFmtDT data.scheduled_arrival) <:+: make_ical_event now data ∧
    codes "STATUS:CONFIRMED" <:+: make_ical_event now data ∧
    (make_ical_event_data now data).dtstart = data.scheduled_departure ∧
    (make_ical_event_data now data).dtstart_tzid = data.origin_timezone ∧
    (make_ical_event_data now data).dtend = data.scheduled_arrival ∧
    (make_ical_event_data now data).dtend_tzid = data.destination_timezone ∧
    (make_ical_event_data now data).status = codes "CONFIRMED" := by
  have hunf : make_ical_event now data = joinCrlf
      [ codes "BEGIN:VCALENDAR"
      , codes "PRODID:-//eluceo/ical//2.0/EN"
      , codes "VERSION:2.0"
      , codes "CALSCALE:GREGORIAN"
      , codes "METHOD:REQUEST"
      , codes "BEGIN:VEVENT"
      , codes "SUMMARY:" ++ (codes "üõ´ " ++ data.airline_name ++ codes " " ++
          data.origin_airport_code ++ codes " ‚û°Ô∏è " ++
          data.destination_airport_code ++ codes " " ++ data.flight_number)
      , codes "DTSTART;TZID=" ++ data.origin_timezone ++ [58] ++
          icalFmtDT data.scheduled_departure
      , codes "DTEND;TZID=" ++ data.destination_timezone ++ [58] ++
          icalFmtDT data.scheduled_arrival
      , codes "LOCATION:" ++ data.origin_airport
      , codes "DESCRIPTION:" ++ (data.airline_name ++ codes " flight " ++
          data.flight_number ++ codes " / Departs " ++ data.origin_airport ++
          codes ", " ++ data.origin_airport_code)
      , codes "DTSTAMP:" ++ icalFmtDT now ++ codes "Z"
      , codes "STATUS:" ++ codes "CONFIRMED"
      , codes "END:VEVENT"
      , codes "END:VCALENDAR" ] := rfl
  rw [hunf]
  refine ⟨?_, ?_, ?_, ?_, ?_, ?_, ?_, ?_, ?_, rfl, rfl, rfl, rfl, rfl⟩
  · exact joinCrlf_infix (codes "BEGIN:VCALENDAR") (by simp) (List.infix_refl _)
  · exact joinCrlf_infix (codes "BEGIN:VEVENT") (by simp)
      (List.infix_refl _)
  · exact joinCrlf_infix
      (codes "SUMMARY:" ++ (codes "üõ´ " ++ data.airline_name ++
        codes " " ++ data.origin_airport_code ++ codes " ‚û°Ô∏è " ++
        data.destination_airport_code ++ codes " " ++ data.flight_number))
      (by simp) (isInfix_appendR _ (isInfix_append_self _ _))
  · exact joinCrlf_infix
      (codes "SUMMARY:" ++ (codes "üõ´ " ++ data.airline_name ++
        codes " " ++ data.origin_airport_code ++ codes " ‚û°Ô∏è " ++
        data.destination_airport_code ++ codes " " ++ data.flight_number))
      (by simp)
      (isInfix_appendR _ (isInfix_appendL _ (isInfix_appendL _ (isInfix_appendL _
        (isInfix_appendL _ (isInfix_appendL _ (isInfix_appendL _
          (isInfix_append_self _ _))))))))
  · exact joinCrlf_infix
      (codes "SUMMARY:" ++ (codes "üõ´ " ++ data.airline_name ++
        codes " " ++ data.origin_airport_code ++ codes " ‚û°Ô∏è " ++
        data.destination_airport_code ++ codes " " ++ data.flight_number))
      (by simp)
      (isInfix_appendR _ (isInfix_appendL _ (isInfix_appendL _ (isInfix_appendL _
        (isInfix_appendL _ (isInfix_append_self _ _))))))
  · exact joinCrlf_infix
      (codes "SUMMARY:" ++ (codes "üõ´ " ++ data.airline_name ++
        codes " " ++ data.origin_airport_code ++ codes " ‚û°Ô∏è " ++
        data.destination_airport_code ++ codes " " ++ data.flight_number))
      (by simp)
      (isInfix_appendR _ (isInfix_appendL _ (isInfix_appendL _
        (isInfix_append_self _ _))))
  · exact joinCrlf_infix
      (codes "DTSTART;TZID=" ++ data.origin_timezone ++ [58] ++
        icalFmtDT data.scheduled_departure)
      (by simp) (List.infix_refl _)
  · exact joinCrlf_infix
      (codes "DTEND;TZID=" ++ data.destination_timezone ++ [58] ++
        icalFmtDT data.scheduled_arrival)
      (by simp) (List.infix_refl _)
  · have hsplit : codes "STATUS:CONFIRMED" = codes "STATUS:" ++ codes "CONFIRMED" := by
      decide
    rw [hsplit]
    exact joinCrlf_infix (codes "STATUS:" ++ codes "CONFIRMED") (by simp)
      (List.infix_refl _)


end FlightCal
